import Mathlib

/-!
Verification of the `de_dts_without_de_ac3_eac3_truehd` Unmanic plugin.

Shallow embedding of `source/de_dts_without_de_ac3_eac3_truehd/plugin.py`:

* `_parse_lang_tags`   — the tag normalizer,
* `_ffprobe_audio_streams` — the stream prober (modelled over an abstract
  run outcome of the external `ffprobe` process and a JSON value model),
* `_has_de_dts_and_no_de_good` — the admission evaluator,
* `on_library_management_file_test` — the orchestration runner.

Python string primitives (`str.lower`, `str.strip`, `str.split(",")`,
`str.startswith`) are modelled by structurally recursive functions on the
character list of a `String`, so that every definition evaluates by kernel
reduction.  `Char.toLower` mirrors Python `str.lower` on the ASCII range
(the only range exercised by codec names and language tags).
-/

namespace UnmanicDeDts

/-- Model of Python `str.lower()` (ASCII range, per-character). -/
def pyLower (s : String) : String :=
  String.mk (s.data.map Char.toLower)

/-- Model of Python `s.startswith(pre)`: the characters of `pre` are an
initial segment of the characters of `s`. -/
def pyStartsWith (s pre : String) : Bool :=
  pre.data.isPrefixOf s.data

/-- Model of Python `str.strip()`: drop whitespace from both ends. -/
def pyStrip (s : String) : String :=
  String.mk (List.rdropWhile Char.isWhitespace (s.data.dropWhile Char.isWhitespace))

/-- Auxiliary for `pySplitComma`: accumulates the current piece (reversed). -/
def splitCommaAux : List Char → List Char → List (List Char)
  | [], acc => [acc.reverse]
  | c :: rest, acc =>
      if c = ',' then acc.reverse :: splitCommaAux rest [] else splitCommaAux rest (c :: acc)

/-- Model of Python `s.split(",")`: split at every comma, keeping empty
pieces; the empty string yields `[""]`. -/
def pySplitComma (s : String) : List String :=
  (splitCommaAux s.data []).map String.mk

/-- Embedding of `_parse_lang_tags` (plugin.py lines 27-34).

```python
if not raw:
    return []
return [t.strip().lower() for t in raw.split(",") if t.strip()]
```

`raw` is `Option String` because the settings accessor may hand the
function `None`; `none` and `some ""` are both falsy in `if not raw`. -/
def _parse_lang_tags (raw : Option String) : List String :=
  if raw.getD "" = "" then []
  else
    (((pySplitComma (raw.getD "")).filter fun t => !(pyStrip t == "")).map
      fun t => pyLower (pyStrip t))

/-- The `tags` sub-dictionary of an ffprobe stream entry: only the
`language` key is consulted; `none` models an absent or `null` entry. -/
structure StreamTags where
  language : Option String
deriving DecidableEq

/-- One audio-stream descriptor as consumed by the evaluator: the dict
keys read by the plugin, with `none` modelling an absent or `null` key. -/
structure AudioStream where
  codec_name : Option String
  codec_type : Option String
  tags : Option StreamTags
deriving DecidableEq

/-- The `good_codecs` set of `_has_de_dts_and_no_de_good` (lines 88-90):
`{"ac3", "eac3"}`, plus `"truehd"` when the policy flag is set. -/
def good_codecs (treat_truehd_as_good : Bool) : List String :=
  ["ac3", "eac3"] ++ (if treat_truehd_as_good then ["truehd"] else [])

/-- `(stream.get("codec_name") or "").lower()` (line 93). -/
def streamCodec (stream : AudioStream) : String :=
  pyLower (stream.codec_name.getD "")

/-- `tags = stream.get("tags") or {}; lang = (tags.get("language") or "").lower()`
(lines 94-95). -/
def streamLang (stream : AudioStream) : String :=
  pyLower (((stream.tags.getD { language := none }).language).getD "")

/-- Embedding of `_has_de_dts_and_no_de_good` (plugin.py lines 74-107):
a single scan accumulating `(has_de_dts, has_de_good)`, skipping a stream
when a non-empty language filter does not contain its language, and
finally returning `has_de_dts and not has_de_good`. -/
def _has_de_dts_and_no_de_good (streams : List AudioStream) (lang_tags : List String)
    (treat_truehd_as_good : Bool) : Bool :=
  let r := streams.foldl
    (fun (acc : Bool × Bool) stream =>
      let codec := streamCodec stream
      let lang := streamLang stream
      if !lang_tags.isEmpty && !(lang_tags.contains lang) then acc
      else (acc.1 || pyStartsWith codec "dts",
            acc.2 || (good_codecs treat_truehd_as_good).contains codec))
    (false, false)
  r.1 && !r.2

/-- A stream participates in the scan: the filter is empty, or it contains
the stream's lowercased language tag (negation of the `continue` guard,
line 98). -/
def streamConsidered (lang_tags : List String) (stream : AudioStream) : Bool :=
  lang_tags.isEmpty || lang_tags.contains (streamLang stream)

/-- The stream's lowercased codec name starts with `"dts"` (line 101). -/
def streamIsDts (stream : AudioStream) : Bool :=
  pyStartsWith (streamCodec stream) "dts"

/-- The stream's lowercased codec name is exactly a member of the
acceptable-codec set (line 104). -/
def streamIsGood (treat_truehd_as_good : Bool) (stream : AudioStream) : Bool :=
  (good_codecs treat_truehd_as_good).contains (streamCodec stream)

/-- JSON values as produced by Python `json.loads` on ffprobe output.
Python `None` (both JSON `null` and a `dict.get` miss) is `null`. -/
inductive Json where
  | null : Json
  | bool : Bool → Json
  | num : Int → Json
  | str : String → Json
  | arr : List Json → Json
  | obj : List (String × Json) → Json

/-- The Python exceptions the prober's body can raise past its handlers. -/
inductive PyExc where
  | attributeError : PyExc
  | typeError : PyExc
deriving DecidableEq

/-- Python truthiness of a `json.loads` value (`None`, `False`, `0`, `""`,
`[]`, `{}` are falsy). -/
def Json.falsy : Json → Bool
  | .null => true
  | .bool b => !b
  | .num n => n == 0
  | .str s => s == ""
  | .arr elems => elems.isEmpty
  | .obj fields => fields.isEmpty

/-- Python `x.get(key)`: on a dict, the value (or `None` on a miss); on
any other value an `AttributeError` is raised. -/
def Json.dictGet (j : Json) (key : String) : Except PyExc Json :=
  match j with
  | .obj fields =>
      match fields.lookup key with
      | some v => .ok v
      | none => .ok .null
  | _ => .error .attributeError

/-- The list comprehension
`[s for s in streams if s.get("codec_type") == "audio"]` (line 72):
each entry's `.get` raises `AttributeError` unless the entry is a dict;
the comparison with `"audio"` holds only for that exact JSON string. -/
def filterAudioStreams : List Json → Except PyExc (List Json)
  | [] => .ok []
  | s :: rest => do
      let v ← s.dictGet "codec_type"
      let tail ← filterAudioStreams rest
      match v with
      | .str t => if t = "audio" then pure (s :: tail) else pure tail
      | _ => pure tail

/-- Outcome of the `subprocess.run` + `json.loads` stages for one ffprobe
invocation, the external input `_ffprobe_audio_streams` is evaluated
against:

* `execFailure` — `subprocess.run` raised (spawn failure, non-zero exit
  via `check=True`, …); caught by the plugin's `except Exception`;
* `decodeFailure` — the tool's stdout was not valid JSON, so `json.loads`
  raised `json.JSONDecodeError`; caught by the plugin;
* `parsed j` — stdout decoded to the JSON value `j`. -/
inductive FfprobeRun where
  | execFailure : FfprobeRun
  | decodeFailure : FfprobeRun
  | parsed : Json → FfprobeRun

/-- Embedding of `_ffprobe_audio_streams` (plugin.py lines 37-72) over an
abstract run outcome.  The result is `Except PyExc` because the body
after the two `try` blocks

```python
streams = data.get("streams") or []
return [s for s in streams if s.get("codec_type") == "audio"]
```

is *not* guarded: `data.get` raises `AttributeError` when the decoded
JSON is not an object, iterating a truthy non-list raises (`TypeError`
for numbers/booleans, `AttributeError` on the first element for
non-empty strings and dicts), and a non-dict list entry raises
`AttributeError` in `s.get`. -/
def _ffprobe_audio_streams (run : FfprobeRun) : Except PyExc (List Json) :=
  match run with
  | .execFailure => .ok []
  | .decodeFailure => .ok []
  | .parsed data => do
      let v ← data.dictGet "streams"
      let streams := if v.falsy then Json.arr [] else v
      match streams with
      | .arr elems => filterAudioStreams elems
      | .str _ => .error .attributeError
      | .obj _ => .error .attributeError
      | _ => .error .typeError

/-- One diagnostic entry appended to `data["issues"]`. -/
structure Issue where
  id : String
  message : String
deriving DecidableEq

/-- The Unmanic plugin id used in every diagnostic entry. -/
def plugin_id : String := "de_dts_without_de_ac3_eac3_truehd"

/-- The fields of the mutable `data` dict that
`on_library_management_file_test` reads or writes.  `path = none` models
an absent or `None` entry; `add_file_to_pending_tasks = none` models a
flag that no runner has touched yet. -/
structure FileTestData where
  path : Option String
  issues : List Issue
  add_file_to_pending_tasks : Option Bool
deriving DecidableEq

/-- Embedding of `on_library_management_file_test` (plugin.py lines
110-171).  The two per-library settings (the raw language-tag string and
the TrueHD flag) and the prober are external collaborators, passed in as
explicit parameters; `probe path` stands for `_ffprobe_audio_streams(path)`.
`data.path.getD "" = ""` is Python's `if not path` (absent, `None`, or
empty path). -/
def on_library_management_file_test (probe : String → List AudioStream)
    (lang_raw : Option String) (treat_truehd : Bool) (data : FileTestData) : FileTestData :=
  let lang_tags := _parse_lang_tags lang_raw
  if data.path.getD "" = "" then
    { data with issues := data.issues ++
        [{ id := plugin_id, message := "Kein Dateipfad im Plugin-Runner verfügbar." }] }
  else
    let streams := probe (data.path.getD "")
    if streams.isEmpty then
      { data with issues := data.issues ++
          [{ id := plugin_id,
             message := "ffprobe lieferte keine Audio-Streams - Datei wird nicht explizit gefiltert." }] }
    else
      let candidate := _has_de_dts_and_no_de_good streams lang_tags treat_truehd
      if candidate then
        { data with
            add_file_to_pending_tasks := some true,
            issues := data.issues ++
              [{ id := plugin_id,
                 message := "Datei enthält DE-DTS, aber keine DE-AC3/EAC3/TrueHD - für EAC3-Transcode zulassen." }] }
      else
        { data with
            add_file_to_pending_tasks := some false,
            issues := data.issues ++
              [{ id := plugin_id,
                 message := "Datei ignoriert: Entweder keine DE-DTS-Spur oder bereits DE-AC3/EAC3/TrueHD vorhanden." }] }

/-! Helper lemmas: `Char.toLower` and whitespace -/

theorem char_toNat_ofNat {n : Nat} (h : n.isValidChar) : (Char.ofNat n).toNat = n := by
  rw [Char.ofNat, dif_pos h]
  rfl

theorem char_toLower_of_upper {c : Char} (h : 65 ≤ c.toNat ∧ c.toNat ≤ 90) :
    c.toLower = Char.ofNat (c.toNat + 32) := by
  simp only [Char.toLower]
  rw [if_pos ⟨h.1, h.2⟩]

theorem char_toLower_of_not {c : Char} (h : ¬(65 ≤ c.toNat ∧ c.toNat ≤ 90)) :
    c.toLower = c := by
  simp only [Char.toLower]
  rw [if_neg fun hc => h ⟨hc.1, hc.2⟩]

theorem char_toNat_toLower_of_upper {c : Char} (h : 65 ≤ c.toNat ∧ c.toNat ≤ 90) :
    c.toLower.toNat = c.toNat + 32 := by
  rw [char_toLower_of_upper h, char_toNat_ofNat (Or.inl (by omega))]

theorem char_toLower_idem (c : Char) : c.toLower.toLower = c.toLower := by
  by_cases h : 65 ≤ c.toNat ∧ c.toNat ≤ 90
  · have ht := char_toNat_toLower_of_upper h
    apply char_toLower_of_not
    omega
  · rw [char_toLower_of_not h, char_toLower_of_not h]

theorem char_ws_false (c : Char) (h32 : c.toNat ≠ 32) (h9 : c.toNat ≠ 9)
    (h13 : c.toNat ≠ 13) (h10 : c.toNat ≠ 10) : c.isWhitespace = false := by
  simp only [Char.isWhitespace, Bool.or_eq_false_iff, decide_eq_false_iff_not]
  refine ⟨⟨⟨fun hc => h32 (by rw [hc]; rfl), fun hc => h9 (by rw [hc]; rfl)⟩,
    fun hc => h13 (by rw [hc]; rfl)⟩, fun hc => h10 (by rw [hc]; rfl)⟩

theorem char_ws_toLower (c : Char) : c.toLower.isWhitespace = c.isWhitespace := by
  by_cases h : 65 ≤ c.toNat ∧ c.toNat ≤ 90
  · have ht := char_toNat_toLower_of_upper h
    rw [char_ws_false c (by omega) (by omega) (by omega) (by omega),
      char_ws_false c.toLower (by omega) (by omega) (by omega) (by omega)]
  · rw [char_toLower_of_not h]

/-! Helper lemmas: `pyLower` and `pyStrip` -/

theorem data_pyLower (s : String) : (pyLower s).data = s.data.map Char.toLower := rfl

theorem data_pyStrip (s : String) :
    (pyStrip s).data = List.rdropWhile Char.isWhitespace (s.data.dropWhile Char.isWhitespace) :=
  rfl

theorem pyLower_idem (s : String) : pyLower (pyLower s) = pyLower s := by
  apply String.ext
  simp only [data_pyLower, List.map_map]
  exact List.map_congr_left fun c _ => char_toLower_idem c

theorem pyLower_ne_empty {s : String} (h : s ≠ "") : pyLower s ≠ "" := by
  intro hc
  apply h
  apply String.ext
  have hd := congrArg String.data hc
  simp only [data_pyLower] at hd
  cases he : s.data with
  | nil => rfl
  | cons x xs => rw [he] at hd; simp at hd

theorem dropWhile_stripList (p : α → Bool) (l : List α) :
    List.dropWhile p (List.rdropWhile p (List.dropWhile p l)) =
      List.rdropWhile p (List.dropWhile p l) := by
  obtain ⟨r, hr⟩ := List.rdropWhile_prefix p (List.dropWhile p l)
  cases hm : List.rdropWhile p (List.dropWhile p l) with
  | nil => rfl
  | cons x t =>
    rw [hm] at hr
    have h1 : List.dropWhile p l = x :: (t ++ r) := by rw [← hr]; simp
    have hx : p x = false := by
      have h2 := List.head?_dropWhile_not p l
      rw [h1] at h2
      exact h2
    simp [List.dropWhile_cons, hx]

theorem stripList_idem (p : α → Bool) (l : List α) :
    List.rdropWhile p (List.dropWhile p (List.rdropWhile p (List.dropWhile p l))) =
      List.rdropWhile p (List.dropWhile p l) := by
  rw [dropWhile_stripList, List.rdropWhile_idempotent]

theorem pyStrip_idem (s : String) : pyStrip (pyStrip s) = pyStrip s := by
  apply String.ext
  simp only [data_pyStrip]
  exact stripList_idem _ _

theorem rdropWhile_map (f : α → β) (p : β → Bool) (l : List α) :
    List.rdropWhile p (l.map f) = (List.rdropWhile (fun a => p (f a)) l).map f := by
  simp only [List.rdropWhile, ← List.map_reverse, List.dropWhile_map]
  rfl

theorem pyStrip_pyLower (s : String) : pyStrip (pyLower s) = pyLower (pyStrip s) := by
  apply String.ext
  have hp : (fun c => Char.isWhitespace (Char.toLower c)) = Char.isWhitespace :=
    funext fun c => char_ws_toLower c
  simp only [data_pyStrip, data_pyLower, List.dropWhile_map, rdropWhile_map]
  rw [show (Char.isWhitespace ∘ Char.toLower) = Char.isWhitespace from hp, hp]

/-! Helper lemmas: the evaluator's scan as two independent `any` scans -/

theorem foldl_pair (lang_tags : List String) (treat : Bool) (streams : List AudioStream) :
    ∀ a b : Bool,
      streams.foldl
        (fun (acc : Bool × Bool) stream =>
          if !lang_tags.isEmpty && !(lang_tags.contains (streamLang stream)) then acc
          else (acc.1 || pyStartsWith (streamCodec stream) "dts",
                acc.2 || (good_codecs treat).contains (streamCodec stream)))
        (a, b)
      = (a || streams.any fun s => streamConsidered lang_tags s && streamIsDts s,
         b || streams.any fun s => streamConsidered lang_tags s && streamIsGood treat s) := by
  induction streams with
  | nil => intro a b; simp
  | cons s rest ih =>
    intro a b
    simp only [List.foldl_cons, List.any_cons]
    by_cases h : (!lang_tags.isEmpty && !(lang_tags.contains (streamLang s))) = true
    · have hc : streamConsidered lang_tags s = false := by
        simp only [Bool.and_eq_true, Bool.not_eq_true'] at h
        unfold streamConsidered
        rw [h.1, h.2]
        rfl
      rw [if_pos h, ih a b]
      simp [hc]
    · have h' : (!lang_tags.isEmpty && !(lang_tags.contains (streamLang s))) = false :=
        Bool.eq_false_iff.mpr h
      have hc : streamConsidered lang_tags s = true := by
        unfold streamConsidered
        rcases Bool.and_eq_false_iff.mp h' with h1 | h1
        · rw [Bool.not_eq_false'] at h1
          rw [h1]
          rfl
        · rw [Bool.not_eq_false'] at h1
          rw [h1, Bool.or_true]
      rw [if_neg h, ih]
      simp [hc, streamIsDts, streamIsGood, Bool.or_assoc]

theorem eval_eq_any (streams : List AudioStream) (lang_tags : List String) (treat : Bool) :
    _has_de_dts_and_no_de_good streams lang_tags treat =
      ((streams.any fun s => streamConsidered lang_tags s && streamIsDts s) &&
       !(streams.any fun s => streamConsidered lang_tags s && streamIsGood treat s)) := by
  simp only [_has_de_dts_and_no_de_good]
  rw [foldl_pair]
  simp

theorem any_eq_of_perm {α : Type} {l₁ l₂ : List α} (h : l₁.Perm l₂) (p : α → Bool) :
    l₁.any p = l₂.any p := by
  simp [List.any_eq, h.mem_iff]

/-! Claims -/

/-- C1: `_has_de_dts_and_no_de_good` returns `true` if and only if at least
one stream whose lowercased language tag passes the filter has a lowercased
codec name starting with `"dts"` (prefix match), and no filter-passing
stream has a lowercased codec name exactly equal to a member of the
acceptable-codec set. -/
theorem admission_true_iff (streams : List AudioStream) (lang_tags : List String)
    (treat : Bool) :
    _has_de_dts_and_no_de_good streams lang_tags treat = true ↔
      ((∃ s ∈ streams, streamConsidered lang_tags s = true ∧ streamIsDts s = true) ∧
       ¬ ∃ s ∈ streams, streamConsidered lang_tags s = true ∧ streamIsGood treat s = true) := by
  rw [eval_eq_any]
  simp [List.any_eq_true, Bool.and_eq_true, not_exists]

/-- C2: the two failure stages the plugin guards — a raised tool invocation
(`except Exception`) and a JSON decode error (`except json.JSONDecodeError`)
— both yield the empty stream list; but tool output that decodes to valid
JSON of an unexpected shape is NOT guarded: a top-level JSON array (stdout
`"[]"`) makes `data.get("streams")` raise `AttributeError` to the caller,
contradicting the spec's claim that every uninterpretable output yields the
empty list. -/
theorem ffprobe_failures_and_gap :
    _ffprobe_audio_streams .execFailure = .ok [] ∧
    _ffprobe_audio_streams .decodeFailure = .ok [] ∧
    _ffprobe_audio_streams (.parsed (.arr [])) = .error .attributeError :=
  ⟨rfl, rfl, rfl⟩

/-- C3: when probing is inconclusive — the path is absent or empty, or the
prober returns zero streams — `on_library_management_file_test` leaves
`add_file_to_pending_tasks` (and `path`) unchanged and only appends one
diagnostic entry to `issues`. -/
theorem file_test_inconclusive (probe : String → List AudioStream) (lang_raw : Option String)
    (treat : Bool) (data : FileTestData)
    (h : data.path.getD "" = "" ∨ probe (data.path.getD "") = []) :
    (on_library_management_file_test probe lang_raw treat data).add_file_to_pending_tasks
        = data.add_file_to_pending_tasks ∧
    (on_library_management_file_test probe lang_raw treat data).path = data.path ∧
    ∃ m, (on_library_management_file_test probe lang_raw treat data).issues
        = data.issues ++ [{ id := plugin_id, message := m }] := by
  unfold on_library_management_file_test
  by_cases hp : data.path.getD "" = ""
  · rw [if_pos hp]
    exact ⟨rfl, rfl, _, rfl⟩
  · have hs : probe (data.path.getD "") = [] := h.resolve_left hp
    rw [if_neg hp]
    simp only [hs, List.isEmpty_nil, if_true]
    exact ⟨trivial, trivial, _, rfl⟩

/-- C3 witness: a concrete run in which the prober returns zero streams
leaves the admission flag untouched and appends one diagnostic. -/
theorem file_test_inconclusive_witness :
    (on_library_management_file_test (fun _ => []) (some "deu,de,ger") true
        { path := some "/x.mkv", issues := [], add_file_to_pending_tasks := none }).add_file_to_pending_tasks
      = ({ path := some "/x.mkv", issues := [], add_file_to_pending_tasks := none } : FileTestData).add_file_to_pending_tasks ∧
    (on_library_management_file_test (fun _ => []) (some "deu,de,ger") true
        { path := some "/x.mkv", issues := [], add_file_to_pending_tasks := none }).path
      = ({ path := some "/x.mkv", issues := [], add_file_to_pending_tasks := none } : FileTestData).path ∧
    ∃ m, (on_library_management_file_test (fun _ => []) (some "deu,de,ger") true
        { path := some "/x.mkv", issues := [], add_file_to_pending_tasks := none }).issues
      = ({ path := some "/x.mkv", issues := [], add_file_to_pending_tasks := none } : FileTestData).issues
          ++ [{ id := plugin_id, message := m }] :=
  file_test_inconclusive (fun _ => []) (some "deu,de,ger") true
    { path := some "/x.mkv", issues := [], add_file_to_pending_tasks := none } (Or.inr rfl)

/-- C4: when the path is usable and the prober yields a non-empty stream
list, `on_library_management_file_test` sets `add_file_to_pending_tasks`
to exactly the evaluator's boolean — never leaves it unset. -/
theorem file_test_decides (probe : String → List AudioStream) (lang_raw : Option String)
    (treat : Bool) (data : FileTestData)
    (h1 : data.path.getD "" ≠ "") (h2 : probe (data.path.getD "") ≠ []) :
    (on_library_management_file_test probe lang_raw treat data).add_file_to_pending_tasks
      = some (_has_de_dts_and_no_de_good (probe (data.path.getD ""))
          (_parse_lang_tags lang_raw) treat) := by
  unfold on_library_management_file_test
  rw [if_neg h1]
  have he : (probe (data.path.getD "")).isEmpty = false := by
    simpa [List.isEmpty_iff] using h2
  simp only [he, Bool.false_eq_true, if_false]
  by_cases hc : _has_de_dts_and_no_de_good (probe (data.path.getD ""))
      (_parse_lang_tags lang_raw) treat = true
  · rw [if_pos hc, hc]
  · rw [if_neg hc]
    rw [Bool.eq_false_iff.mpr hc]

/-- C4 witness: a concrete run with one probed DTS stream records exactly
the evaluator's boolean. -/
theorem file_test_decides_witness :
    (on_library_management_file_test
        (fun _ => [{ codec_name := some "dts", codec_type := some "audio",
                     tags := some { language := some "deu" } }])
        (some "deu,de,ger") true
        { path := some "/x.mkv", issues := [], add_file_to_pending_tasks := none }).add_file_to_pending_tasks
      = some (_has_de_dts_and_no_de_good
          [{ codec_name := some "dts", codec_type := some "audio",
             tags := some { language := some "deu" } }]
          (_parse_lang_tags (some "deu,de,ger")) true) :=
  file_test_decides _ _ _ _ (by decide) (by decide)

/-- C5: the admission evaluator is invariant under any permutation of the
stream list. -/
theorem admission_perm_invariant (streams streams' : List AudioStream)
    (lang_tags : List String) (treat : Bool) (h : streams.Perm streams') :
    _has_de_dts_and_no_de_good streams lang_tags treat =
      _has_de_dts_and_no_de_good streams' lang_tags treat := by
  rw [eval_eq_any, eval_eq_any, any_eq_of_perm h, any_eq_of_perm h]

/-- C5 witness: swapping two concrete streams does not change the verdict. -/
theorem admission_perm_invariant_witness :
    _has_de_dts_and_no_de_good
        [{ codec_name := some "dts", codec_type := some "audio", tags := some { language := some "deu" } },
         { codec_name := some "ac3", codec_type := some "audio", tags := some { language := some "deu" } }]
        ["deu"] true =
      _has_de_dts_and_no_de_good
        [{ codec_name := some "ac3", codec_type := some "audio", tags := some { language := some "deu" } },
         { codec_name := some "dts", codec_type := some "audio", tags := some { language := some "deu" } }]
        ["deu"] true :=
  admission_perm_invariant _ _ _ _ (List.Perm.swap _ _ _)

/-- C6: the acceptable-codec set is exactly `{"ac3", "eac3"}` when the
TrueHD flag is false and exactly `{"ac3", "eac3", "truehd"}` when it is
true; on the scenario-D stream list the evaluator answers `true` with the
flag off and `false` with the flag on. -/
theorem good_codecs_spec :
    (∀ c : String, c ∈ good_codecs false ↔ (c = "ac3" ∨ c = "eac3")) ∧
    (∀ c : String, c ∈ good_codecs true ↔ (c = "ac3" ∨ c = "eac3" ∨ c = "truehd")) ∧
    _has_de_dts_and_no_de_good
        [{ codec_name := some "truehd", codec_type := some "audio", tags := some { language := some "deu" } },
         { codec_name := some "dts", codec_type := some "audio", tags := some { language := some "deu" } }]
        ["deu"] false = true ∧
    _has_de_dts_and_no_de_good
        [{ codec_name := some "truehd", codec_type := some "audio", tags := some { language := some "deu" } },
         { codec_name := some "dts", codec_type := some "audio", tags := some { language := some "deu" } }]
        ["deu"] true = false := by
  refine ⟨?_, ?_, by decide, by decide⟩
  · intro c; simp [good_codecs]
  · intro c; simp [good_codecs, or_assoc]

/-- C7: `_parse_lang_tags` maps `None` and `""` to the empty list, returns
exactly the comma-separated pieces of the input with surrounding whitespace
stripped, empty pieces dropped and each remaining piece lowercased, and
every returned token is non-empty, lowercase and trimmed. -/
theorem parse_lang_tags_spec :
    (_parse_lang_tags none = [] ∧ _parse_lang_tags (some "") = []) ∧
    (∀ r : String, _parse_lang_tags (some r) =
       ((pySplitComma r).filter fun t => !(pyStrip t == "")).map fun t => pyLower (pyStrip t)) ∧
    (∀ (raw : Option String), ∀ t ∈ _parse_lang_tags raw,
       t ≠ "" ∧ pyLower t = t ∧ pyStrip t = t) := by
  refine ⟨⟨rfl, rfl⟩, ?_, ?_⟩
  · intro r
    by_cases h : r = ""
    · subst h; rfl
    · unfold _parse_lang_tags
      rw [if_neg (by simpa using h)]
      rfl
  · intro raw t ht
    have hmem : ∃ t0 ∈ (pySplitComma (raw.getD "")).filter (fun t => !(pyStrip t == "")),
        t = pyLower (pyStrip t0) := by
      unfold _parse_lang_tags at ht
      split at ht
      · simp at ht
      · obtain ⟨t0, h0, ht0⟩ := List.mem_map.mp ht
        exact ⟨t0, h0, ht0.symm⟩
    obtain ⟨t0, h0, rfl⟩ := hmem
    have hne : pyStrip t0 ≠ "" := by
      have := (List.mem_filter.mp h0).2
      simpa using this
    refine ⟨pyLower_ne_empty hne, pyLower_idem _, ?_⟩
    rw [pyStrip_pyLower, pyStrip_idem]

/-- C7 witness: a concrete raw configuration string produces the token
`"deu"`, which is non-empty, lowercase and trimmed. -/
theorem parse_lang_tags_spec_witness :
    "deu" ∈ _parse_lang_tags (some " Deu ,de") ∧
    ("deu" ≠ "" ∧ pyLower "deu" = "deu" ∧ pyStrip "deu" = "deu") :=
  ⟨by decide, parse_lang_tags_spec.2.2 (some " Deu ,de") "deu" (by decide)⟩

/-- C8: with an empty language filter every stream participates in both
checks regardless of its language tag — the evaluator equals the two
unfiltered scans combined. -/
theorem admission_empty_filter :
    (∀ s : AudioStream, streamConsidered [] s = true) ∧
    ∀ (streams : List AudioStream) (treat : Bool),
      _has_de_dts_and_no_de_good streams [] treat =
        ((streams.any streamIsDts) && !(streams.any (streamIsGood treat))) := by
  constructor
  · intro s; rfl
  · intro streams treat
    rw [eval_eq_any]
    simp [streamConsidered]

/-- C9: on every terminating code path `on_library_management_file_test`
appends exactly one diagnostic entry with id
`"de_dts_without_de_ac3_eac3_truehd"` to `issues`, preserving all
pre-existing entries. -/
theorem file_test_always_appends (probe : String → List AudioStream) (lang_raw : Option String)
    (treat : Bool) (data : FileTestData) :
    ∃ m, (on_library_management_file_test probe lang_raw treat data).issues
        = data.issues ++ [{ id := "de_dts_without_de_ac3_eac3_truehd", message := m }] := by
  unfold on_library_management_file_test
  by_cases hp : data.path.getD "" = ""
  · rw [if_pos hp]
    exact ⟨_, rfl⟩
  · rw [if_neg hp]
    by_cases he : (probe (data.path.getD "")).isEmpty = true
    · simp only [he, if_true]
      exact ⟨_, rfl⟩
    · simp only [he, if_false]
      by_cases hc : _has_de_dts_and_no_de_good (probe (data.path.getD ""))
          (_parse_lang_tags lang_raw) treat = true
      · rw [if_pos hc]
        exact ⟨_, rfl⟩
      · rw [if_neg hc]
        exact ⟨_, rfl⟩

/-- C10 counterexample: the claim — that every stream with an absent
`codec_name`, `tags` or `language` counts as neither a DTS candidate nor an
acceptable codec — is false: the concrete stream
`{codec_name := "dts", tags := absent}` is a DTS candidate
(`streamIsDts = true`) and alone drives the admission verdict to `true`
under the empty filter. -/
theorem stream_missing_tags_is_dts :
    ¬ (∀ s : AudioStream,
        (s.codec_name = none ∨ s.tags = none ∨ s.tags = some { language := none }) →
        streamIsDts s = false ∧ streamIsGood false s = false) := by
  intro h
  have hc := (h { codec_name := some "dts", codec_type := some "audio", tags := none }
    (Or.inr (Or.inl rfl))).1
  have ht : streamIsDts
      { codec_name := some "dts", codec_type := some "audio", tags := none } = true := by
    decide
  rw [ht] at hc
  simp at hc

/-- C10 amended: a stream with absent or null `codec_name` counts as
neither a DTS candidate nor an acceptable codec; a stream with absent or
null `tags` or `language` has the empty string as its language and — for
any filter not containing the empty token, in particular every filter that
`_parse_lang_tags` can produce — participates exactly when the filter is
empty.  In all cases the missing value is treated as the empty string and
evaluation is total. -/
theorem stream_missing_fields_safe :
    (∀ (s : AudioStream) (treat : Bool), s.codec_name = none →
        streamIsDts s = false ∧ streamIsGood treat s = false) ∧
    (∀ (s : AudioStream) (lang_tags : List String),
        (s.tags = none ∨ s.tags = some { language := none }) → "" ∉ lang_tags →
        streamLang s = "" ∧ streamConsidered lang_tags s = lang_tags.isEmpty) := by
  constructor
  · intro s treat h
    have hc : streamCodec s = "" := by unfold streamCodec; rw [h]; rfl
    constructor
    · unfold streamIsDts; rw [hc]; rfl
    · unfold streamIsGood; rw [hc]; cases treat <;> rfl
  · intro s lang_tags htags hne
    have hlang : streamLang s = "" := by
      unfold streamLang
      rcases htags with h | h <;> rw [h] <;> rfl
    refine ⟨hlang, ?_⟩
    unfold streamConsidered
    rw [hlang]
    simp [hne]

/-- C10 amended witness: a concrete codec-less stream matches nothing, and
a concrete tag-less DTS stream has empty language and is skipped by the
non-empty filter `["deu"]`. -/
theorem stream_missing_fields_safe_witness :
    (streamIsDts { codec_name := none, codec_type := some "audio", tags := some { language := some "deu" } } = false ∧
     streamIsGood true { codec_name := none, codec_type := some "audio", tags := some { language := some "deu" } } = false) ∧
    (streamLang { codec_name := some "dts", codec_type := some "audio", tags := none } = "" ∧
     streamConsidered ["deu"] { codec_name := some "dts", codec_type := some "audio", tags := none }
        = (["deu"] : List String).isEmpty) :=
  ⟨stream_missing_fields_safe.1 _ true rfl,
   stream_missing_fields_safe.2 _ ["deu"] (Or.inl rfl) (by decide)⟩

end UnmanicDeDts
